import Mathlib

/-!
Mission planner session (`app.js`).

A shallow embedding of the session state of `app.js` and of its event
handlers, followed by the properties of the mission document that are
established about them.

Conventions of the embedding.

* The global variables of the script are the fields of `Session`.  Handles
  of rendered layers (`tempClickMarker`, `missionPathLine`,
  `workZoneTempLine`, the `marker` of a node) are not part of the mission
  document and are left out; calls that only draw are no-ops here.
* The contents of the form widgets are supplied to the handler that reads
  them (`Form`), since the operator may put any text there before a
  submission.
* The map library is not part of the script.  What the handlers ask of it
  is collected in `MapApi` and every result is stated for an arbitrary
  `MapApi`.
* Script numbers that hold whole seconds are integers here.  The script
  computes with doubles, which represent every integer of absolute value
  at most `2 ^ 53` exactly.
-/

namespace MissionPlanner

/-! ## Data model -/

/-- A geographic position as reported by the map (`e.latlng`). -/
structure LatLng where
  lat : Rat
  lng : Rat
  deriving DecidableEq, Repr

/-- The object literal built in `createNodeBtn.onclick` (without `marker`). -/
structure Node where
  id : String
  name : String
  task : String
  type : String
  lat : Rat
  lng : Rat
  holdTime : Int
  taskDuration : Option Int
  deriving DecidableEq, Repr

/-- The `missionType` member of `missionMetadata`. -/
structure MissionType where
  type : String
  serviceLocation : Option LatLng
  deriving DecidableEq, Repr

/-- The global `missionMetadata`. -/
structure MissionMetadata where
  date : String
  missionName : String
  version : String
  author : String
  missionType : MissionType
  deriving DecidableEq, Repr

/-- The global variables of the script.  `workZonePolygon` holds the point
list the polygon was built from. -/
structure Session where
  missionModeEnabled : Bool
  missionEnded : Bool
  loopDetected : Bool
  pendingLatLng : Option LatLng
  workZoneMode : Bool
  workZonePoints : List LatLng
  workZonePolygon : Option (List LatLng)
  missionMetadata : MissionMetadata
  missionNodes : List Node
  safetyDocks : List Node
  homeNode : Option Node
  deriving DecidableEq, Repr

/-- The values of the form widgets read by `createNodeBtn.onclick`. -/
structure Form where
  nodeCategory : String
  nodeId : String
  nodeName : String
  nodeTask : String
  hh : String
  mm : String
  ss : String
  task_hh : String
  task_mm : String
  task_ss : String
  missionName : String
  missionType : String
  deriving DecidableEq, Repr

/-- What the handlers use of the map library.
* `distance a b` is `map.distance(a, b)`;
* `boundsContains pts p` is `polygon.getBounds().contains(p)` for the polygon
  built from `pts`;
* `getLatLngs pts` is `polygon.getLatLngs()[0]` for that polygon;
* `markerAdds cat` tells whether `L.marker(pos, { icon: ICONS[cat] }).addTo(map)`
  returns normally (`ICONS` has the keys home, waypoint, special, hold and
  safety only). -/
structure MapApi where
  distance : LatLng → LatLng → Rat
  boundsContains : List LatLng → LatLng → Bool
  getLatLngs : List LatLng → List LatLng
  markerAdds : String → Bool

/-- The initial values of the globals; `today` is the ISO date read from the
clock. -/
def defaultMetadata (today : String) : MissionMetadata :=
  { date := today
    missionName := ""
    version := "1.0"
    author := "Unknown"
    missionType := { type := "", serviceLocation := none } }

/-- The session right after the script has loaded. -/
def initSession (today : String) : Session :=
  { missionModeEnabled := false
    missionEnded := false
    loopDetected := false
    pendingLatLng := none
    workZoneMode := false
    workZonePoints := []
    workZonePolygon := none
    missionMetadata := defaultMetadata today
    missionNodes := []
    safetyDocks := []
    homeNode := none }

/-! ## Strings -/

/-- White space and line terminators of the script language, the characters
removed by `trim` and skipped by `parseInt`. -/
def isJsSpace (c : Char) : Bool :=
  let n := c.toNat
  n == 0x09 || n == 0x0A || n == 0x0B || n == 0x0C || n == 0x0D || n == 0x20 ||
  n == 0xA0 || n == 0x1680 || (0x2000 ≤ n && n ≤ 0x200A) || n == 0x2028 ||
  n == 0x2029 || n == 0x202F || n == 0x205F || n == 0x3000 || n == 0xFEFF

/-- The method `String.prototype.trim` on a character list. -/
def trimChars (cs : List Char) : List Char :=
  ((cs.dropWhile isJsSpace).reverse.dropWhile isJsSpace).reverse

/-- The method `String.prototype.trim`. -/
def jsTrim (s : String) : String := String.mk (trimChars s.data)

/-- The character class `[A-Za-z0-9_-]`. -/
def isValidChar (c : Char) : Bool :=
  ('A' ≤ c && c ≤ 'Z') || ('a' ≤ c && c ≤ 'z') || ('0' ≤ c && c ≤ '9') ||
  c == '_' || c == '-'

/-- The function `isValidText`: the test of `/^[A-Za-z0-9_-]+$/`. -/
def isValidText (v : String) : Bool :=
  !v.data.isEmpty && v.data.all isValidChar

/-! ## Time parsers -/

/-- A decimal digit. -/
def isDigit (c : Char) : Bool := '0' ≤ c && c ≤ '9'

/-- Value of a run of decimal digits, most significant first. -/
def digitsValue (ds : List Char) : Nat :=
  ds.foldl (fun acc c => acc * 10 + (c.toNat - '0'.toNat)) 0

/-- The call `parseInt(v, 10)` on a character list whose leading white space has been
removed: an optional sign, then the longest run of digits; what follows the
run is ignored.  `none` stands for `NaN`. -/
def parseIntBody (cs : List Char) : Option Int :=
  let neg := cs.head? == some '-'
  let rest := if cs.head? == some '-' || cs.head? == some '+' then cs.tail else cs
  let ds := rest.takeWhile isDigit
  if ds.isEmpty then none
  else some (if neg then -(digitsValue ds : Int) else (digitsValue ds : Int))

/-- The call `parseInt(s, 10)`; `none` stands for `NaN`. -/
def parseInt10 (s : String) : Option Int :=
  parseIntBody (s.data.dropWhile isJsSpace)

/-- The expression `v || "0"` for a string `v`. -/
def orZero (v : String) : String := if v.data.isEmpty then "0" else v

/-- The test `isNaN(v) || v < 0` for one parsed component. -/
def badComponent (v : Option Int) : Bool :=
  match v with
  | none => true
  | some n => decide (n < 0)

/-- Whether a parsed component exceeds 59 (`NaN > 59` is false). -/
def above59 (v : Option Int) : Bool :=
  match v with
  | none => false
  | some n => decide (n > 59)

/-- The body shared by `parseHHMMSS` and `parseTaskDuration`, once the three
widget values have been read. -/
def parseTriple (hv mv sv : String) : Option Int :=
  let h := parseInt10 (orZero hv)
  let m := parseInt10 (orZero mv)
  let s := parseInt10 (orZero sv)
  if [h, m, s].any badComponent || above59 m || above59 s then none
  else
    match h, m, s with
    | some h, some m, some s => some (h * 3600 + m * 60 + s)
    | _, _, _ => none

/-- The function `parseHHMMSS`, reading the widgets `hh`, `mm`, `ss`; `none` is `null`. -/
def parseHHMMSS (f : Form) : Option Int := parseTriple f.hh f.mm f.ss

/-- The function `parseTaskDuration`, reading `task_hh`, `task_mm`, `task_ss`. -/
def parseTaskDuration (f : Form) : Option Int :=
  parseTriple f.task_hh f.task_mm f.task_ss

/-! ## Validation helpers and handlers -/

/-- The function `isUniqueId`: the id occurs neither in `missionNodes` nor in
`safetyDocks`. -/
def isUniqueId (s : Session) (id : String) : Bool :=
  !s.missionNodes.any (fun n => n.id == id) &&
  !s.safetyDocks.any (fun n => n.id == id)

/-- The function `isInsideWorkZone`. -/
def isInsideWorkZone (api : MapApi) (s : Session) (p : LatLng) : Bool :=
  match s.workZonePolygon with
  | none => true
  | some pts => api.boundsContains pts p

/-- The function `resetSidePanel`, as far as the globals are concerned. -/
def resetSidePanel (s : Session) : Session :=
  { s with pendingLatLng := none }

/-- The handler `missionToggleBtn.onclick`. -/
def missionToggle (s : Session) : Session :=
  { s with missionModeEnabled := !s.missionModeEnabled }

/-- The first `click` listener ("workzone draw"). -/
def clickDraw (s : Session) (p : LatLng) : Session :=
  if !s.workZoneMode then s
  else { s with workZonePoints := s.workZonePoints ++ [p] }

/-- The test `dist < 20` of the second `click` listener, `start` being
`workZonePoints[0]`. -/
def nearStart (api : MapApi) (s : Session) (p : LatLng) : Bool :=
  match s.workZonePoints.head? with
  | some start => decide (api.distance p start < 20)
  | none => false

/-- The second `click` listener (closing or extending the work zone). -/
def clickZone (api : MapApi) (s : Session) (p : LatLng) : Session :=
  if !s.workZoneMode then s
  else if decide (s.workZonePoints.length ≥ 3) && nearStart api s p then
    { s with workZonePolygon := some s.workZonePoints, workZoneMode := false }
  else { s with workZonePoints := s.workZonePoints ++ [p] }

/-- A map click: both `click` listeners, in registration order. -/
def mapClick (api : MapApi) (s : Session) (p : LatLng) : Session :=
  clickZone api (clickDraw s p) p

/-- The predicate given to `findIndex` in the `dblclick` listener. -/
def nearNode (api : MapApi) (p : LatLng) (n : Node) : Bool :=
  decide (api.distance p ⟨n.lat, n.lng⟩ < 20)

/-- The `dblclick` listener. -/
def dblclick (api : MapApi) (s : Session) (p : LatLng) : Session :=
  if !s.missionModeEnabled || s.missionEnded then s
  else
    match s.missionNodes.findIdx? (nearNode api p) with
    | some clickedIndex =>
      match s.missionNodes[clickedIndex]? with
      | none => s
      | some node =>
        if node.type == "home" then { s with missionEnded := true }
        else if clickedIndex == s.missionNodes.length - 1 then s
        else { s with loopDetected := true }
    | none =>
      if !isInsideWorkZone api s p then s
      else { s with pendingLatLng := some p }

/-- The message passed to `showNotification` by `createNodeBtn.onclick`, or
the way the handler ended without one. -/
inductive CreateResult where
  | noPending
  | allFieldsRequired
  | invalidText
  | idNotUnique
  | onlyOneHome
  | invalidTime
  | invalidTaskDuration
  | markerFailed
  | safetyDockAdded
  | nodeAdded
  deriving DecidableEq, Repr

/-- The first statement of `createNodeBtn.onclick` after the guard: the
mission name and type are taken from the form while `missionNodes` is empty. -/
def captureMetadata (s : Session) (f : Form) : Session :=
  if s.missionNodes.isEmpty then
    { s with missionMetadata :=
        { s.missionMetadata with
          missionName := jsTrim f.missionName
          missionType :=
            { s.missionMetadata.missionType with type := f.missionType } } }
  else s

/-- The hold time of a submission: parsed for category `hold`, else `0`;
`none` when the parser returned `null`. -/
def holdTimeOf (cat : String) (f : Form) : Option Int :=
  if cat == "hold" then parseHHMMSS f else some 0

/-- The task duration of a submission: parsed unless the category is `home`
or `safety`, for which it stays `null` (`some none`); `none` when the parser
returned `null`. -/
def taskDurationOf (cat : String) (f : Form) : Option (Option Int) :=
  if cat != "home" && cat != "safety" then
    match parseTaskDuration f with
    | none => none
    | some d => some (some d)
  else some none

/-- The handler `createNodeBtn.onclick`: the new session and how the handler ended. -/
def createNode (api : MapApi) (s : Session) (f : Form) : Session × CreateResult :=
  match s.pendingLatLng with
  | none => (s, .noPending)
  | some pos =>
    let s1 := captureMetadata s f
    let cat := f.nodeCategory
    let id := jsTrim f.nodeId
    let name := jsTrim f.nodeName
    let task := jsTrim f.nodeTask
    if cat.data.isEmpty || id.data.isEmpty || name.data.isEmpty || task.data.isEmpty then
      (s1, .allFieldsRequired)
    else if !isValidText id || !isValidText task then (s1, .invalidText)
    else if !isUniqueId s1 id then (s1, .idNotUnique)
    else if cat == "home" && s1.homeNode.isSome then (s1, .onlyOneHome)
    else
      match holdTimeOf cat f with
      | none => (s1, .invalidTime)
      | some holdTime =>
        match taskDurationOf cat f with
        | none => (s1, .invalidTaskDuration)
        | some taskDuration =>
          if !api.markerAdds cat then (s1, .markerFailed)
          else
            let node : Node :=
              { id := id, name := name, task := task, type := cat
                lat := pos.lat, lng := pos.lng
                holdTime := holdTime, taskDuration := taskDuration }
            if cat == "safety" then
              (resetSidePanel { s1 with safetyDocks := s1.safetyDocks ++ [node] },
                .safetyDockAdded)
            else
              let s2 := if cat == "home" then { s1 with homeNode := some node } else s1
              (resetSidePanel { s2 with missionNodes := s2.missionNodes ++ [node] },
                .nodeAdded)

/-- The endings of `createNodeBtn.onclick` that report a validation failure. -/
def CreateResult.isRejection : CreateResult → Bool
  | .allFieldsRequired => true
  | .invalidText => true
  | .idNotUnique => true
  | .onlyOneHome => true
  | .invalidTime => true
  | .invalidTaskDuration => true
  | _ => false

/-- The handler `clearMissionBtn.onclick`; `today` is the date read from the clock. -/
def clearMission (s : Session) (today : String) : Session :=
  resetSidePanel
    { s with
      missionNodes := []
      safetyDocks := []
      homeNode := none
      missionEnded := false
      loopDetected := false
      workZonePoints := []
      workZonePolygon := none
      workZoneMode := false
      missionMetadata := defaultMetadata today }

/-- The handler `workZoneBtn.onclick`. -/
def workZoneToggle (s : Session) : Session :=
  let s1 := { s with workZoneMode := !s.workZoneMode }
  if s1.workZoneMode then { s1 with workZonePoints := [], workZonePolygon := none }
  else s1

/-! ## Export -/

/-- The member `holdTime` of an exported entry. -/
structure HoldTimeJson where
  duration : Int
  unit : String
  deriving DecidableEq, Repr

/-- The member `taskDuration` of an exported path entry, when not `null`. -/
structure TaskDurationJson where
  expectedTime : Int
  unit : String
  deriving DecidableEq, Repr

/-- An entry of `missionPath`. -/
structure PathEntry where
  id : String
  name : String
  type : String
  coordinates : LatLng
  task : String
  holdTime : HoldTimeJson
  taskDuration : Option TaskDurationJson
  deriving DecidableEq, Repr

/-- An entry of the exported `safetyDocks`. -/
structure DockEntry where
  id : String
  name : String
  coordinates : LatLng
  holdTime : HoldTimeJson
  deriving DecidableEq, Repr

/-- The member `missionStatus`. -/
structure MissionStatus where
  missionEnded : Bool
  loopDetected : Bool
  hasWorkZone : Bool
  deriving DecidableEq, Repr

/-- The member `workZone`. -/
structure WorkZoneJson where
  enabled : Bool
  points : List LatLng
  deriving DecidableEq, Repr

/-- The object `data` serialised by `exportBtn.onclick`. -/
structure ExportDoc where
  metadata : MissionMetadata
  missionStatus : MissionStatus
  workZone : WorkZoneJson
  missionPath : List PathEntry
  safetyDocks : List DockEntry
  deriving DecidableEq, Repr

/-- The conditional `n.taskDuration ? { expectedTime, unit } : null`: `null`
and `0` are the falsy values a task duration can take. -/
def exportTaskDuration (t : Option Int) : Option TaskDurationJson :=
  match t with
  | none => none
  | some d => if d == 0 then none else some { expectedTime := d, unit := "seconds" }

/-- The mapping applied to the elements of `missionNodes`. -/
def exportNode (n : Node) : PathEntry :=
  { id := n.id
    name := n.name
    type := n.type
    coordinates := ⟨n.lat, n.lng⟩
    task := n.task
    holdTime := { duration := n.holdTime, unit := "seconds" }
    taskDuration := exportTaskDuration n.taskDuration }

/-- The mapping applied to the elements of `safetyDocks` (`n.holdTime || 0`
is `n.holdTime`). -/
def exportDock (n : Node) : DockEntry :=
  { id := n.id
    name := n.name
    coordinates := ⟨n.lat, n.lng⟩
    holdTime := { duration := n.holdTime, unit := "seconds" } }

/-- The first statement of `exportBtn.onclick`: the service location of an
infinity mission is set from the first path node. -/
def updateServiceLocation (s : Session) : Session :=
  match s.missionNodes with
  | n :: _ =>
    if s.missionMetadata.missionType.type == "infinity" then
      { s with missionMetadata :=
          { s.missionMetadata with
            missionType :=
              { s.missionMetadata.missionType with
                serviceLocation := some ⟨n.lat, n.lng⟩ } } }
    else s
  | [] => s

/-- The handler `exportBtn.onclick`: the session afterwards and the exported object. -/
def exportMission (api : MapApi) (s : Session) : Session × ExportDoc :=
  let s1 := updateServiceLocation s
  (s1,
    { metadata := s1.missionMetadata
      missionStatus :=
        { missionEnded := s1.missionEnded
          loopDetected := s1.loopDetected
          hasWorkZone := s1.workZonePolygon.isSome }
      workZone :=
        match s1.workZonePolygon with
        | some pts => { enabled := true, points := api.getLatLngs pts }
        | none => { enabled := false, points := [] }
      missionPath := s1.missionNodes.map exportNode
      safetyDocks := s1.safetyDocks.map exportDock })

/-! ## Sessions as event sequences -/

/-- The handler invocations. -/
inductive Event where
  | missionToggle
  | workZoneToggle
  | click (p : LatLng)
  | dblclick (p : LatLng)
  | createNode (f : Form)
  | cancel
  | clear (today : String)
  | exportJson
  deriving DecidableEq, Repr

/-- One handler invocation. -/
def step (api : MapApi) (s : Session) : Event → Session
  | .missionToggle => missionToggle s
  | .workZoneToggle => workZoneToggle s
  | .click p => mapClick api s p
  | .dblclick p => dblclick api s p
  | .createNode f => (createNode api s f).1
  | .cancel => resetSidePanel s
  | .clear today => clearMission s today
  | .exportJson => (exportMission api s).1

/-- The session reached from a fresh one by a sequence of handler
invocations. -/
def run (api : MapApi) (today : String) (evs : List Event) : Session :=
  evs.foldl (step api) (initSession today)

/-! ## A concrete map, for evaluation -/

/-- A map on which distinct positions are 100 units apart, every position
lies within every bounds, and every marker can be added. -/
def flatMap : MapApi :=
  { distance := fun a b => if a = b then 0 else 100
    boundsContains := fun _ _ => true
    getLatLngs := fun pts => pts
    markerAdds := fun _ => true }

/-- A form with the node fields given and all time fields empty. -/
def nodeForm (cat id name task : String) : Form :=
  { nodeCategory := cat, nodeId := id, nodeName := name, nodeTask := task
    hh := "", mm := "", ss := "", task_hh := "", task_mm := "", task_ss := ""
    missionName := "M", missionType := "infinity" }

/-! ## The HH:MM:SS reference -/

/-- Value of a decimal numeral, digit by digit with its power of ten. -/
def numeralValue : List Char → Nat
  | [] => 0
  | c :: cs => (c.toNat - '0'.toNat) * 10 ^ cs.length + numeralValue cs

/-- Reference reading of one time field, after the wording "empty fields
default to 0; any non-numeric component invalidates the whole field": an empty
field is 0, a field made of decimal digits only is its value, anything else is
invalid. -/
def refComponent (v : String) : Option Nat :=
  if v.data.isEmpty then some 0
  else if v.data.all isDigit then some (numeralValue v.data)
  else none

/-- Reference for the time fields, after the wording "`HH:MM:SS` with
`0 ≤ MM,SS ≤ 59`, non-negative integers, converted to total seconds". -/
def refTime (hv mv sv : String) : Option Int :=
  match refComponent hv, refComponent mv, refComponent sv with
  | some h, some m, some s =>
    if m ≤ 59 ∧ s ≤ 59 then some ((h * 3600 + m * 60 + s : Nat) : Int) else none
  | _, _, _ => none

/-- The leading run of decimal digits of a field. -/
def leadingDigits (v : String) : String := String.mk (v.data.takeWhile isDigit)

/-- The field is empty or its first character is a decimal digit. -/
def emptyOrDigitFirst (v : String) : Bool :=
  match v.data with
  | [] => true
  | c :: _ => isDigit c

/-- The first character of the field is neither white space, nor a sign, nor
a decimal digit. -/
def startsForeign (v : String) : Bool :=
  match v.data with
  | [] => false
  | c :: _ => !isDigit c && !isJsSpace c && c != '-' && c != '+'

/-- The field is a minus sign followed by a decimal numeral that is not zero. -/
def isNegativeNumeral (v : String) : Bool :=
  match v.data with
  | [] => false
  | c :: ds => c == '-' && !ds.isEmpty && ds.all isDigit && numeralValue ds != 0

/-- The field cannot be read as a non-negative integer: it starts with a
foreign character or is a negative numeral. -/
def unreadable (v : String) : Bool := startsForeign v || isNegativeNumeral v

/-- The reading of one time field, in words: an empty field reads 0; otherwise
the field is some white space, then at most one sign, then a non-empty run of
decimal digits, then anything that does not start with a digit, and it reads
the value of the digit run, negated under a minus sign.  A field of no such
shape has no reading. -/
def ReadsAs (v : String) (n : Int) : Prop :=
  (v.data = [] ∧ n = 0) ∨
  ∃ ws sg ds rest : List Char,
    v.data = ws ++ sg ++ ds ++ rest ∧
    (∀ c ∈ ws, isJsSpace c = true) ∧
    (sg = [] ∨ sg = ['+'] ∨ sg = ['-']) ∧
    ds ≠ [] ∧
    (∀ c ∈ ds, isDigit c = true) ∧
    (∀ c, rest.head? = some c → isDigit c = false) ∧
    n = if sg = ['-'] then -(numeralValue ds : Int) else (numeralValue ds : Int)

/-! ## Scenarios -/

/-- Whether the event is an invocation of clear. -/
def Event.isClear : Event → Bool
  | .clear _ => true
  | _ => false

/-- Three positions, pairwise distinct. -/
def posA : LatLng := ⟨0, 0⟩

/-- See `posA`. -/
def posB : LatLng := ⟨1, 0⟩

/-- See `posA`. -/
def posC : LatLng := ⟨1, 1⟩

/-- A home node and two waypoints are placed; a double click on the first
waypoint is followed by a double click on the home node. -/
def loopThenHomeEvents : List Event :=
  [ .missionToggle
  , .dblclick posA, .createNode (nodeForm "home" "H" "Base" "park")
  , .dblclick posB, .createNode (nodeForm "waypoint" "W1" "First" "scan")
  , .dblclick posC, .createNode (nodeForm "waypoint" "W2" "Second" "scan")
  , .dblclick posB
  , .dblclick posA ]

/-- A home node is placed and double-clicked. -/
def endAtHomeEvents : List Event :=
  [ .missionToggle
  , .dblclick posA, .createNode (nodeForm "home" "H" "Base" "park")
  , .dblclick posA ]

/-- After the mission has ended: more double clicks, a submission, an export
and both toggles. -/
def afterEndEvents : List Event :=
  [ .dblclick posB, .createNode (nodeForm "waypoint" "W1" "First" "scan")
  , .dblclick posA, .exportJson, .workZoneToggle, .click posC, .missionToggle, .cancel ]

/-- Drawing mode is switched on and four clicks follow, the last one on the
first position. -/
def zoneEvents : List Event :=
  [ .workZoneToggle, .click posA, .click posB, .click posC, .click posA ]

/-- A position is chosen by double click on a fresh session. -/
def pendingEvents : List Event := [ .missionToggle, .dblclick posA ]

/-- A submission with a mission name but no node fields. -/
def blankForm : Form := nodeForm "" "" "" ""

/-- A waypoint is submitted with empty task-duration fields. -/
def zeroDurationEvents : List Event :=
  [ .missionToggle
  , .dblclick posA, .createNode (nodeForm "waypoint" "W1" "First" "scan") ]

/-- A form whose hour field has a trailing letter. -/
def trailingLetterForm : Form :=
  { nodeForm "hold" "H1" "Hold" "wait" with hh := "1x", mm := "0", ss := "0" }

/-! ## The shape of a create-node submission -/

/-- The node built by a submission that passed validation. -/
def builtNode (pos : LatLng) (f : Form) (holdTime : Int) (taskDuration : Option Int) : Node :=
  { id := jsTrim f.nodeId, name := jsTrim f.nodeName, task := jsTrim f.nodeTask
    type := f.nodeCategory, lat := pos.lat, lng := pos.lng
    holdTime := holdTime, taskDuration := taskDuration }

/-- The session after a dock has been stored. -/
def withDock (s : Session) (node : Node) : Session :=
  resetSidePanel { s with safetyDocks := s.safetyDocks ++ [node] }

/-- The session after a path node has been stored. -/
def withPathNode (s : Session) (node : Node) : Session :=
  resetSidePanel
    { (if node.type == "home" then { s with homeNode := some node } else s) with
      missionNodes := s.missionNodes ++ [node] }

/-! ## The session invariant -/

/-- The ids of all stored entities, path nodes first. -/
def allIds (s : Session) : List String :=
  (s.missionNodes ++ s.safetyDocks).map Node.id

/-- What every handler preserves. -/
structure WellFormed (s : Session) : Prop where
  ids_nodup : (allIds s).Nodup
  docks_safety : ∀ d ∈ s.safetyDocks, d.type = "safety"
  no_home : s.homeNode = none → ∀ n ∈ s.missionNodes, n.type ≠ "home"
  home_count : (s.missionNodes.filter (fun n => n.type == "home")).length ≤ 1
  closed_mode : s.workZonePolygon.isSome = true → s.workZoneMode = false
  service_none : s.missionNodes = [] → s.missionMetadata.missionType.serviceLocation = none

/-! ## Lemmas on the handlers -/

theorem captureMetadata_fields (s : Session) (f : Form) :
    (captureMetadata s f).missionNodes = s.missionNodes ∧
    (captureMetadata s f).safetyDocks = s.safetyDocks ∧
    (captureMetadata s f).homeNode = s.homeNode ∧
    (captureMetadata s f).missionEnded = s.missionEnded ∧
    (captureMetadata s f).loopDetected = s.loopDetected ∧
    (captureMetadata s f).missionModeEnabled = s.missionModeEnabled ∧
    (captureMetadata s f).workZoneMode = s.workZoneMode ∧
    (captureMetadata s f).workZonePoints = s.workZonePoints ∧
    (captureMetadata s f).workZonePolygon = s.workZonePolygon ∧
    (captureMetadata s f).pendingLatLng = s.pendingLatLng ∧
    (captureMetadata s f).missionMetadata.missionType.serviceLocation =
      s.missionMetadata.missionType.serviceLocation := by
  unfold captureMetadata
  split <;> simp

/-- The four ways a submission can leave the session. -/
theorem createNode_cases (api : MapApi) (s : Session) (f : Form) :
    (createNode api s f).1 = s ∨
    (createNode api s f).1 = captureMetadata s f ∨
    (∃ node : Node, isUniqueId (captureMetadata s f) node.id = true ∧
        node.type = "safety" ∧
        (createNode api s f).1 = withDock (captureMetadata s f) node) ∨
    (∃ node : Node, isUniqueId (captureMetadata s f) node.id = true ∧
        node.type ≠ "safety" ∧
        (node.type = "home" → (captureMetadata s f).homeNode = none) ∧
        (createNode api s f).1 = withPathNode (captureMetadata s f) node) := by
  unfold createNode
  cases hp : s.pendingLatLng with
  | none => left; rfl
  | some pos =>
    simp only
    split
    · right; left; rfl
    split
    · right; left; rfl
    split
    · right; left; rfl
    split
    · right; left; rfl
    rename_i hreq htxt huniq hhome
    cases hh : holdTimeOf f.nodeCategory f with
    | none => right; left; rfl
    | some holdTime =>
      cases ht : taskDurationOf f.nodeCategory f with
      | none => right; left; rfl
      | some taskDuration =>
        simp only
        split
        · right; left; rfl
        split
        · rename_i hs
          right; right; left
          refine ⟨builtNode pos f holdTime taskDuration, ?_, ?_, rfl⟩
          · simpa [builtNode] using huniq
          · simpa [builtNode] using hs
        · rename_i hs
          right; right; right
          refine ⟨builtNode pos f holdTime taskDuration, ?_, ?_, ?_, ?_⟩
          · simpa [builtNode] using huniq
          · simpa [builtNode] using hs
          · intro hc
            simp only [builtNode] at hc
            simp [hc] at hhome
            exact hhome
          · simp only [withPathNode, builtNode]
            split <;> rfl

theorem isUniqueId_iff (s : Session) (id : String) :
    isUniqueId s id = true ↔ id ∉ allIds s := by
  simp only [isUniqueId, allIds, Bool.and_eq_true, Bool.not_eq_true', List.any_eq_false,
    List.map_append, List.mem_append, List.mem_map, beq_iff_eq]
  constructor
  · rintro ⟨h1, h2⟩ (⟨n, hn, rfl⟩ | ⟨n, hn, rfl⟩)
    · exact h1 n hn rfl
    · exact h2 n hn rfl
  · intro h
    exact ⟨fun n hn e => h (Or.inl ⟨n, hn, e⟩), fun n hn e => h (Or.inr ⟨n, hn, e⟩)⟩

theorem wellFormed_init (today : String) : WellFormed (initSession today) := by
  constructor <;> simp [initSession, allIds, defaultMetadata]

theorem wellFormed_missionToggle {s : Session} (h : WellFormed s) :
    WellFormed (missionToggle s) :=
  ⟨h.ids_nodup, h.docks_safety, h.no_home, h.home_count, h.closed_mode, h.service_none⟩

theorem wellFormed_resetSidePanel {s : Session} (h : WellFormed s) :
    WellFormed (resetSidePanel s) :=
  ⟨h.ids_nodup, h.docks_safety, h.no_home, h.home_count, h.closed_mode, h.service_none⟩

theorem wellFormed_clearMission (s : Session) (today : String) :
    WellFormed (clearMission s today) := by
  constructor <;> simp [clearMission, resetSidePanel, allIds, defaultMetadata]

theorem wellFormed_workZoneToggle {s : Session} (h : WellFormed s) :
    WellFormed (workZoneToggle s) := by
  unfold workZoneToggle
  cases hm : s.workZoneMode
  · exact ⟨h.ids_nodup, h.docks_safety, h.no_home, h.home_count, by simp, h.service_none⟩
  · refine ⟨h.ids_nodup, h.docks_safety, h.no_home, h.home_count, ?_, h.service_none⟩
    simp

theorem wellFormed_clickDraw {s : Session} (h : WellFormed s) (p : LatLng) :
    WellFormed (clickDraw s p) := by
  unfold clickDraw
  split
  · exact h
  · exact ⟨h.ids_nodup, h.docks_safety, h.no_home, h.home_count, h.closed_mode, h.service_none⟩

theorem wellFormed_clickZone (api : MapApi) {s : Session} (h : WellFormed s) (p : LatLng) :
    WellFormed (clickZone api s p) := by
  unfold clickZone
  split
  · exact h
  · split
    · exact ⟨h.ids_nodup, h.docks_safety, h.no_home, h.home_count, by simp, h.service_none⟩
    · exact ⟨h.ids_nodup, h.docks_safety, h.no_home, h.home_count, h.closed_mode,
        h.service_none⟩

theorem wellFormed_dblclick (api : MapApi) {s : Session} (h : WellFormed s) (p : LatLng) :
    WellFormed (dblclick api s p) := by
  unfold dblclick
  split
  · exact h
  · split
    · split
      · exact h
      · split
        · exact ⟨h.ids_nodup, h.docks_safety, h.no_home, h.home_count, h.closed_mode,
            h.service_none⟩
        · split
          · exact h
          · exact ⟨h.ids_nodup, h.docks_safety, h.no_home, h.home_count, h.closed_mode,
              h.service_none⟩
    · split
      · exact h
      · exact ⟨h.ids_nodup, h.docks_safety, h.no_home, h.home_count, h.closed_mode,
          h.service_none⟩

theorem wellFormed_captureMetadata {s : Session} (h : WellFormed s) (f : Form) :
    WellFormed (captureMetadata s f) := by
  unfold captureMetadata
  split
  · exact ⟨h.ids_nodup, h.docks_safety, h.no_home, h.home_count, h.closed_mode,
      h.service_none⟩
  · exact h

theorem wellFormed_updateServiceLocation {s : Session} (h : WellFormed s) :
    WellFormed (updateServiceLocation s) := by
  unfold updateServiceLocation
  split
  · rename_i n rest hn
    split
    · refine ⟨h.ids_nodup, h.docks_safety, h.no_home, h.home_count, h.closed_mode, ?_⟩
      intro he
      simp [hn] at he
    · exact h
  · exact h

theorem wellFormed_withDock {s : Session} (h : WellFormed s) (node : Node)
    (hu : isUniqueId s node.id = true) (ht : node.type = "safety") :
    WellFormed (withDock s node) := by
  rw [isUniqueId_iff] at hu
  refine ⟨?_, ?_, h.no_home, h.home_count, h.closed_mode, h.service_none⟩
  · have hp : (s.missionNodes ++ (s.safetyDocks ++ [node])).map Node.id =
        allIds s ++ [node.id] := by
      simp [allIds]
    show ((s.missionNodes ++ (s.safetyDocks ++ [node])).map Node.id).Nodup
    rw [hp]
    exact List.Nodup.append h.ids_nodup (List.nodup_singleton _)
      (by
        intro a ha hb
        rw [List.mem_singleton.1 hb] at ha
        exact hu ha)
  · intro d hd
    have hd' : d ∈ s.safetyDocks ++ [node] := hd
    rcases List.mem_append.1 hd' with hd | hd
    · exact h.docks_safety d hd
    · rw [List.mem_singleton.1 hd]; exact ht

theorem wellFormed_withPathNode {s : Session} (h : WellFormed s) (node : Node)
    (hu : isUniqueId s node.id = true) (hh : node.type = "home" → s.homeNode = none) :
    WellFormed (withPathNode s node) := by
  rw [isUniqueId_iff] at hu
  have hnodes : (withPathNode s node).missionNodes = s.missionNodes ++ [node] := by
    unfold withPathNode; split <;> rfl
  have hdocks : (withPathNode s node).safetyDocks = s.safetyDocks := by
    unfold withPathNode; split <;> rfl
  have hpoly : (withPathNode s node).workZonePolygon = s.workZonePolygon := by
    unfold withPathNode; split <;> rfl
  have hmode : (withPathNode s node).workZoneMode = s.workZoneMode := by
    unfold withPathNode; split <;> rfl
  refine ⟨?_, ?_, ?_, ?_, ?_, ?_⟩
  · have hperm : List.Perm (allIds (withPathNode s node)) (node.id :: allIds s) := by
      simp only [allIds, hnodes, hdocks, List.map_append, List.map_cons, List.map_nil,
        List.append_assoc, List.singleton_append]
      exact List.perm_middle
    exact hperm.nodup_iff.2 (List.nodup_cons.2 ⟨hu, h.ids_nodup⟩)
  · rw [hdocks]; exact h.docks_safety
  · intro hnone n hn
    rw [hnodes] at hn
    by_cases hty : node.type = "home"
    · exfalso
      have : (withPathNode s node).homeNode = some node := by
        unfold withPathNode; simp [hty, resetSidePanel]
      rw [this] at hnone
      exact Option.noConfusion hnone
    · have hsame : (withPathNode s node).homeNode = s.homeNode := by
        unfold withPathNode; simp [hty, resetSidePanel]
      rw [hsame] at hnone
      rcases List.mem_append.1 hn with hn | hn
      · exact h.no_home hnone n hn
      · rw [List.mem_singleton.1 hn]; exact hty
  · rw [hnodes, List.filter_append, List.length_append]
    by_cases hty : node.type = "home"
    · have hz : s.missionNodes.filter (fun n => n.type == "home") = [] := by
        rw [List.filter_eq_nil_iff]
        intro n hn
        simpa using h.no_home (hh hty) n hn
      rw [hz]
      exact Nat.le_trans (Nat.add_le_add_left (List.length_filter_le _ _) _) (by simp)
    · have : [node].filter (fun n => n.type == "home") = [] := by
        simp [hty]
      rw [this]
      simpa using h.home_count
  · rw [hpoly, hmode]; exact h.closed_mode
  · intro he
    rw [hnodes] at he
    simp at he

theorem wellFormed_createNode (api : MapApi) {s : Session} (h : WellFormed s) (f : Form) :
    WellFormed (createNode api s f).1 := by
  have hc := wellFormed_captureMetadata h f
  rcases createNode_cases api s f with e | e | ⟨node, hu, ht, e⟩ | ⟨node, hu, _, hh, e⟩
  · rw [e]; exact h
  · rw [e]; exact hc
  · rw [e]; exact wellFormed_withDock hc node hu ht
  · rw [e]; exact wellFormed_withPathNode hc node hu hh

theorem wellFormed_step (api : MapApi) {s : Session} (h : WellFormed s) (e : Event) :
    WellFormed (step api s e) := by
  cases e with
  | missionToggle => exact wellFormed_missionToggle h
  | workZoneToggle => exact wellFormed_workZoneToggle h
  | click p => exact wellFormed_clickZone api (wellFormed_clickDraw h p) p
  | dblclick p => exact wellFormed_dblclick api h p
  | createNode f => exact wellFormed_createNode api h f
  | cancel => exact wellFormed_resetSidePanel h
  | clear today => exact wellFormed_clearMission s today
  | exportJson => exact wellFormed_updateServiceLocation h

theorem wellFormed_foldl (api : MapApi) (evs : List Event) :
    ∀ s : Session, WellFormed s → WellFormed (evs.foldl (step api) s) := by
  induction evs with
  | nil => intro s h; exact h
  | cons e rest ih => intro s h; exact ih _ (wellFormed_step api h e)

/-- Every reachable session is well formed. -/
theorem wellFormed_run (api : MapApi) (today : String) (evs : List Event) :
    WellFormed (run api today evs) :=
  wellFormed_foldl api evs _ (wellFormed_init today)

/-! ## What a submission and a double click leave alone -/

theorem createNode_frame (api : MapApi) (s : Session) (f : Form) :
    (createNode api s f).1.missionEnded = s.missionEnded ∧
    (createNode api s f).1.loopDetected = s.loopDetected ∧
    (createNode api s f).1.missionModeEnabled = s.missionModeEnabled ∧
    (createNode api s f).1.workZoneMode = s.workZoneMode ∧
    (createNode api s f).1.workZonePoints = s.workZonePoints ∧
    (createNode api s f).1.workZonePolygon = s.workZonePolygon := by
  obtain ⟨-, -, -, h1, h2, h3, h4, h5, h6, -, -⟩ := captureMetadata_fields s f
  rcases createNode_cases api s f with e | e | ⟨node, -, -, e⟩ | ⟨node, -, -, -, e⟩
  · rw [e]; simp
  · rw [e]; exact ⟨h1, h2, h3, h4, h5, h6⟩
  · rw [e]; exact ⟨h1, h2, h3, h4, h5, h6⟩
  · rw [e]
    unfold withPathNode
    split <;> exact ⟨h1, h2, h3, h4, h5, h6⟩

theorem dblclick_workZone (api : MapApi) (s : Session) (p : LatLng) :
    (dblclick api s p).workZoneMode = s.workZoneMode ∧
    (dblclick api s p).workZonePoints = s.workZonePoints ∧
    (dblclick api s p).workZonePolygon = s.workZonePolygon := by
  unfold dblclick
  repeat' split
  all_goals exact ⟨rfl, rfl, rfl⟩

theorem updateServiceLocation_frame (s : Session) :
    (updateServiceLocation s).missionEnded = s.missionEnded ∧
    (updateServiceLocation s).loopDetected = s.loopDetected ∧
    (updateServiceLocation s).workZoneMode = s.workZoneMode ∧
    (updateServiceLocation s).workZonePoints = s.workZonePoints ∧
    (updateServiceLocation s).workZonePolygon = s.workZonePolygon ∧
    (updateServiceLocation s).missionNodes = s.missionNodes := by
  unfold updateServiceLocation
  repeat' split
  all_goals exact ⟨rfl, rfl, rfl, rfl, rfl, rfl⟩

/-- With drawing mode off, a map click changes nothing. -/
theorem mapClick_of_mode_off (api : MapApi) (s : Session) (p : LatLng)
    (h : s.workZoneMode = false) : mapClick api s p = s := by
  simp [mapClick, clickDraw, clickZone, h]

/-- Once the mission has ended, a handler other than clear keeps both path
flags. -/
theorem step_flags_of_ended (api : MapApi) (s : Session) (e : Event)
    (hc : e.isClear = false) (hend : s.missionEnded = true) :
    (step api s e).missionEnded = true ∧
    (step api s e).loopDetected = s.loopDetected := by
  cases e with
  | missionToggle => exact ⟨hend, rfl⟩
  | workZoneToggle =>
    simp only [step, workZoneToggle]
    split <;> exact ⟨hend, rfl⟩
  | click p =>
    simp only [step, mapClick, clickDraw, clickZone]
    repeat' split
    all_goals exact ⟨hend, rfl⟩
  | dblclick p =>
    have hd : step api s (Event.dblclick p) = s := by simp [step, dblclick, hend]
    rw [hd]
    exact ⟨hend, rfl⟩
  | createNode f =>
    obtain ⟨h1, h2, -⟩ := createNode_frame api s f
    exact ⟨h1.trans hend, h2⟩
  | cancel => exact ⟨hend, rfl⟩
  | clear today => simp [Event.isClear] at hc
  | exportJson =>
    obtain ⟨h1, h2, -⟩ := updateServiceLocation_frame s
    exact ⟨h1.trans hend, h2⟩

theorem foldl_flags_of_ended (api : MapApi) (evs : List Event) :
    ∀ s : Session, (∀ e ∈ evs, e.isClear = false) → s.missionEnded = true →
      (evs.foldl (step api) s).missionEnded = true ∧
      (evs.foldl (step api) s).loopDetected = s.loopDetected := by
  induction evs with
  | nil => intro s _ h; exact ⟨h, rfl⟩
  | cons e rest ih =>
    intro s hc hend
    obtain ⟨h1, h2⟩ := step_flags_of_ended api s e (hc e (List.mem_cons_self _ _)) hend
    obtain ⟨h3, h4⟩ := ih (step api s e) (fun e' he' => hc e' (List.mem_cons_of_mem _ he')) h1
    exact ⟨h3, h4.trans h2⟩

theorem run_append (api : MapApi) (today : String) (evs₁ evs₂ : List Event) :
    run api today (evs₁ ++ evs₂) = evs₂.foldl (step api) (run api today evs₁) := by
  simp [run, List.foldl_append]

/-! ## The time parsers -/

theorem isDigit_bounds (c : Char) (h : isDigit c = true) :
    48 ≤ c.toNat ∧ c.toNat ≤ 57 := by
  simp only [isDigit, Bool.and_eq_true, decide_eq_true_eq] at h
  obtain ⟨h1, h2⟩ := h
  rw [Char.le_def] at h1 h2
  exact ⟨h1, h2⟩

theorem isJsSpace_of_isDigit (c : Char) (h : isDigit c = true) : isJsSpace c = false := by
  obtain ⟨h1, h2⟩ := isDigit_bounds c h
  simp only [isJsSpace]
  generalize c.toNat = n at h1 h2
  interval_cases n <;> decide

theorem ne_sign_of_isDigit (c : Char) (h : isDigit c = true) : c ≠ '-' ∧ c ≠ '+' := by
  constructor <;> (intro e; subst e; revert h; decide)

theorem foldl_digits (ds : List Char) :
    ∀ acc : Nat, ds.foldl (fun acc c => acc * 10 + (c.toNat - '0'.toNat)) acc =
      acc * 10 ^ ds.length + numeralValue ds := by
  induction ds with
  | nil => intro acc; simp [numeralValue]
  | cons c cs ih =>
    intro acc
    simp only [List.foldl_cons, ih, numeralValue, List.length_cons, pow_succ]
    ring

theorem digitsValue_eq (ds : List Char) : digitsValue ds = numeralValue ds := by
  unfold digitsValue
  rw [foldl_digits]
  simp

/-- A list that starts with a digit is read as its leading digit run. -/
theorem parseIntBody_digit (d : Char) (cs : List Char) (h : isDigit d = true) :
    parseIntBody (d :: cs) = some (numeralValue ((d :: cs).takeWhile isDigit) : Int) := by
  obtain ⟨h1, h2⟩ := ne_sign_of_isDigit d h
  simp [parseIntBody, h1, h2, h, digitsValue_eq]

theorem parseInt10_digit (v : String) (d : Char) (cs : List Char) (hv : v.data = d :: cs)
    (h : isDigit d = true) :
    parseInt10 v = some (numeralValue (v.data.takeWhile isDigit) : Int) := by
  unfold parseInt10
  rw [hv, List.dropWhile_cons_of_neg (by simp [isJsSpace_of_isDigit d h])]
  exact parseIntBody_digit d cs h

/-- On a field that is empty or starts with a digit, the parser reads what the
reference reads on the leading digit run. -/
theorem read_eq_ref (v : String) (h : emptyOrDigitFirst v = true) :
    ∃ n : Nat, refComponent (leadingDigits v) = some n ∧
      parseInt10 (orZero v) = some (n : Int) := by
  unfold emptyOrDigitFirst at h
  cases hv : v.data with
  | nil =>
    refine ⟨0, ?_, ?_⟩
    · simp [refComponent, leadingDigits, hv]
    · simp only [orZero, hv, List.isEmpty_nil, if_true]
      decide
  | cons d cs =>
    rw [hv] at h
    simp only at h
    refine ⟨numeralValue (v.data.takeWhile isDigit), ?_, ?_⟩
    · simp only [refComponent, leadingDigits]
      rw [hv, List.takeWhile_cons_of_pos h]
      simp only [List.isEmpty_cons, Bool.false_eq_true, if_false]
      rw [if_pos]
      simp only [List.all_cons, h, Bool.true_and, List.all_eq_true]
      intro x hx
      exact List.mem_takeWhile_imp hx
    · have : orZero v = v := by simp [orZero, hv]
      rw [this]
      exact parseInt10_digit v d cs hv h

theorem parseTriple_eq_refTime (hv mv sv : String) (hh : emptyOrDigitFirst hv = true)
    (hm : emptyOrDigitFirst mv = true) (hs : emptyOrDigitFirst sv = true) :
    parseTriple hv mv sv =
      refTime (leadingDigits hv) (leadingDigits mv) (leadingDigits sv) := by
  obtain ⟨h, rh, ph⟩ := read_eq_ref hv hh
  obtain ⟨m, rm, pm⟩ := read_eq_ref mv hm
  obtain ⟨s, rs, ps⟩ := read_eq_ref sv hs
  simp only [parseTriple, refTime, rh, rm, rs, ph, pm, ps, List.any_cons, List.any_nil,
    badComponent, above59]
  by_cases hle : m ≤ 59 ∧ s ≤ 59
  · obtain ⟨h1, h2⟩ := hle
    have e1 : ¬ ((m : Int) > 59) := by omega
    have e2 : ¬ ((s : Int) > 59) := by omega
    have e3 : ¬ ((h : Int) < 0) := by omega
    have e4 : ¬ ((m : Int) < 0) := by omega
    have e5 : ¬ ((s : Int) < 0) := by omega
    simp [e1, e2, e3, e4, e5, h1, h2]
  · have e3 : ¬ ((h : Int) < 0) := by omega
    have e4 : ¬ ((m : Int) < 0) := by omega
    have e5 : ¬ ((s : Int) < 0) := by omega
    have e6 : ((m : Int) > 59) ∨ ((s : Int) > 59) := by omega
    rw [if_neg hle]
    rcases e6 with e6 | e6 <;> simp [e3, e4, e5, e6]

theorem bad_of_startsForeign (v : String) (h : startsForeign v = true) :
    badComponent (parseInt10 (orZero v)) = true := by
  unfold startsForeign at h
  cases hv : v.data with
  | nil => rw [hv] at h; simp at h
  | cons c cs =>
    rw [hv] at h
    simp only [Bool.and_eq_true, Bool.not_eq_true', bne_iff_ne, ne_eq] at h
    obtain ⟨⟨⟨h1, h2⟩, h3⟩, h4⟩ := h
    have ho : orZero v = v := by simp [orZero, hv]
    rw [ho]
    unfold parseInt10
    rw [hv, List.dropWhile_cons_of_neg (by simp [h2])]
    simp [parseIntBody, h1, h3, h4, badComponent]

theorem bad_of_isNegativeNumeral (v : String) (h : isNegativeNumeral v = true) :
    badComponent (parseInt10 (orZero v)) = true := by
  unfold isNegativeNumeral at h
  cases hv : v.data with
  | nil => rw [hv] at h; simp at h
  | cons c ds =>
    rw [hv] at h
    simp only [Bool.and_eq_true, Bool.not_eq_true', bne_iff_ne, ne_eq, beq_iff_eq] at h
    obtain ⟨⟨⟨h1, h2⟩, h3⟩, h4⟩ := h
    subst h1
    have ho : orZero v = v := by simp [orZero, hv]
    rw [ho]
    unfold parseInt10
    rw [hv, List.dropWhile_cons_of_neg (by decide)]
    have htw : ds.takeWhile isDigit = ds := by
      rw [List.takeWhile_eq_self_iff]
      exact List.all_eq_true.1 h3
    have hne : ds ≠ [] := by
      intro e; rw [e] at h2; simp at h2
    have hpos : 0 < numeralValue ds := Nat.pos_of_ne_zero h4
    have hbody : parseIntBody ('-' :: ds) = some (-(numeralValue ds : Int)) := by
      have hemp : ds.isEmpty = false := by
        cases ds with
        | nil => exact absurd rfl hne
        | cons _ _ => rfl
      simp only [parseIntBody, List.head?_cons, List.tail_cons, beq_self_eq_true,
        Bool.true_or, if_true, htw, hemp, Bool.false_eq_true, if_false, digitsValue_eq]
    rw [hbody]
    simp only [badComponent, decide_eq_true_eq]
    omega

theorem bad_of_unreadable (v : String) (h : unreadable v = true) :
    badComponent (parseInt10 (orZero v)) = true := by
  unfold unreadable at h
  rcases Bool.or_eq_true _ _ ▸ h with h | h
  · exact bad_of_startsForeign v h
  · exact bad_of_isNegativeNumeral v h

theorem parseTriple_none_of_unreadable (hv mv sv : String)
    (h : unreadable hv = true ∨ unreadable mv = true ∨ unreadable sv = true) :
    parseTriple hv mv sv = none := by
  unfold parseTriple
  simp only [List.any_cons, List.any_nil, Bool.or_false]
  rw [if_pos]
  rcases h with h | h | h
  · simp [bad_of_unreadable hv h]
  · simp [bad_of_unreadable mv h]
  · simp [bad_of_unreadable sv h]

theorem takeWhile_of_head_not (p : Char → Bool) (rest : List Char)
    (h : ∀ c, rest.head? = some c → p c = false) : rest.takeWhile p = [] := by
  cases rest with
  | nil => rfl
  | cons c cs => simp [List.takeWhile_cons, h c rfl]

theorem dropWhile_of_head_not (p : Char → Bool) (rest : List Char)
    (h : ∀ c, rest.head? = some c → p c = false) : rest.dropWhile p = rest := by
  cases rest with
  | nil => rfl
  | cons c cs => simp [List.dropWhile_cons, h c rfl]

theorem takeWhile_digit_run (ds rest : List Char) (hd : ∀ c ∈ ds, isDigit c = true)
    (hr : ∀ c, rest.head? = some c → isDigit c = false) :
    (ds ++ rest).takeWhile isDigit = ds := by
  rw [List.takeWhile_append_of_pos hd, takeWhile_of_head_not _ _ hr, List.append_nil]

/-- A sign, a digit run and a tail that does not start with a digit are read
as the signed value of the run. -/
theorem parseIntBody_shape (sg ds rest : List Char)
    (hs : sg = [] ∨ sg = ['+'] ∨ sg = ['-']) (hne : ds ≠ [])
    (hd : ∀ c ∈ ds, isDigit c = true)
    (hr : ∀ c, rest.head? = some c → isDigit c = false) :
    parseIntBody (sg ++ ds ++ rest) =
      some (if sg = ['-'] then -(numeralValue ds : Int) else (numeralValue ds : Int)) := by
  have htw := takeWhile_digit_run ds rest hd hr
  have hemp : ds.isEmpty = false := by
    cases ds with
    | nil => exact absurd rfl hne
    | cons _ _ => rfl
  rcases hs with rfl | rfl | rfl
  · cases ds with
    | nil => exact absurd rfl hne
    | cons d ds' =>
      have hdig : isDigit d = true := hd d (List.mem_cons_self _ _)
      have e := parseIntBody_digit d (ds' ++ rest) hdig
      have htw' : (d :: (ds' ++ rest)).takeWhile isDigit = d :: ds' := htw
      rw [htw'] at e
      simpa using e
  · have e : parseIntBody ('+' :: (ds ++ rest)) =
        if ((ds ++ rest).takeWhile isDigit).isEmpty then none
        else some (digitsValue ((ds ++ rest).takeWhile isDigit) : Int) := rfl
    rw [htw, hemp, digitsValue_eq] at e
    simpa using e
  · have e : parseIntBody ('-' :: (ds ++ rest)) =
        if ((ds ++ rest).takeWhile isDigit).isEmpty then none
        else some (-(digitsValue ((ds ++ rest).takeWhile isDigit) : Int)) := rfl
    rw [htw, hemp, digitsValue_eq] at e
    simpa using e

/-- The head of a sign followed by a digit run is not white space. -/
theorem head_of_shape_not_space (sg ds rest : List Char)
    (hs : sg = [] ∨ sg = ['+'] ∨ sg = ['-']) (hne : ds ≠ [])
    (hd : ∀ c ∈ ds, isDigit c = true) :
    ∀ c, (sg ++ ds ++ rest).head? = some c → isJsSpace c = false := by
  intro c hc
  rcases hs with rfl | rfl | rfl
  · cases ds with
    | nil => exact absurd rfl hne
    | cons d ds' =>
      simp only [List.nil_append, List.cons_append, List.head?_cons, Option.some.injEq] at hc
      subst hc
      exact isJsSpace_of_isDigit _ (hd _ (List.mem_cons_self _ _))
  · simp only [List.singleton_append, List.cons_append, List.head?_cons,
      Option.some.injEq] at hc
    subst hc; decide
  · simp only [List.singleton_append, List.cons_append, List.head?_cons,
      Option.some.injEq] at hc
    subst hc; decide

/-- A field with a reading is parsed to that reading. -/
theorem parseInt10_of_readsAs (v : String) (n : Int) (h : ReadsAs v n) :
    parseInt10 (orZero v) = some n := by
  rcases h with ⟨hv, rfl⟩ | ⟨ws, sg, ds, rest, hv, hws, hs, hne, hd, hr, rfl⟩
  · simp only [orZero, hv, List.isEmpty_nil, if_true]
    decide
  · have hnon : v.data.isEmpty = false := by
      rw [hv]
      cases ds with
      | nil => exact absurd rfl hne
      | cons _ _ => simp
    have ho : orZero v = v := by simp [orZero, hnon]
    rw [ho]
    unfold parseInt10
    rw [hv, List.append_assoc, List.append_assoc, List.dropWhile_append_of_pos hws,
      ← List.append_assoc,
      dropWhile_of_head_not _ _ (head_of_shape_not_space sg ds rest hs hne hd)]
    exact parseIntBody_shape sg ds rest hs hne hd hr

/-- Every list splits into its leading digit run and a tail that does not
start with a digit. -/
theorem digit_split (l : List Char) :
    l = l.takeWhile isDigit ++ l.dropWhile isDigit ∧
    (∀ c ∈ l.takeWhile isDigit, isDigit c = true) ∧
    (∀ c, (l.dropWhile isDigit).head? = some c → isDigit c = false) := by
  refine ⟨(List.takeWhile_append_dropWhile isDigit l).symm, ?_, ?_⟩
  · intro c hc
    exact List.mem_takeWhile_imp hc
  · intro c hc
    have h := List.head?_dropWhile_not isDigit l
    rw [hc] at h
    exact h

/-- What the body returns is the signed value of a digit run that follows at
most one sign. -/
theorem parseIntBody_some (body : List Char) (n : Int) (h : parseIntBody body = some n) :
    ∃ sg ds rest : List Char,
      body = sg ++ ds ++ rest ∧
      (sg = [] ∨ sg = ['+'] ∨ sg = ['-']) ∧
      ds ≠ [] ∧
      (∀ c ∈ ds, isDigit c = true) ∧
      (∀ c, rest.head? = some c → isDigit c = false) ∧
      n = if sg = ['-'] then -(numeralValue ds : Int) else (numeralValue ds : Int) := by
  cases body with
  | nil =>
    have e : parseIntBody [] = none := rfl
    rw [e] at h
    exact Option.noConfusion h
  | cons b bs =>
    by_cases hm : b = '-'
    · subst hm
      have e : parseIntBody ('-' :: bs) =
          if (bs.takeWhile isDigit).isEmpty then none
          else some (-(digitsValue (bs.takeWhile isDigit) : Int)) := rfl
      rw [e] at h
      obtain ⟨h1, h2, h3⟩ := digit_split bs
      by_cases hemp : (bs.takeWhile isDigit).isEmpty = true
      · rw [if_pos hemp] at h; exact absurd h (by simp)
      · rw [if_neg hemp, digitsValue_eq] at h
        refine ⟨['-'], bs.takeWhile isDigit, bs.dropWhile isDigit, ?_, Or.inr (Or.inr rfl),
          ?_, h2, h3, ?_⟩
        · rw [List.append_assoc, ← h1]; rfl
        · intro e0; rw [e0] at hemp; exact hemp rfl
        · rw [if_pos rfl]; exact (Option.some.inj h).symm
    · by_cases hp : b = '+'
      · subst hp
        have e : parseIntBody ('+' :: bs) =
            if (bs.takeWhile isDigit).isEmpty then none
            else some (digitsValue (bs.takeWhile isDigit) : Int) := rfl
        rw [e] at h
        obtain ⟨h1, h2, h3⟩ := digit_split bs
        by_cases hemp : (bs.takeWhile isDigit).isEmpty = true
        · rw [if_pos hemp] at h; exact absurd h (by simp)
        · rw [if_neg hemp, digitsValue_eq] at h
          refine ⟨['+'], bs.takeWhile isDigit, bs.dropWhile isDigit, ?_, Or.inr (Or.inl rfl),
            ?_, h2, h3, ?_⟩
          · rw [List.append_assoc, ← h1]; rfl
          · intro e0; rw [e0] at hemp; exact hemp rfl
          · rw [if_neg (by decide)]; exact (Option.some.inj h).symm
      · have e : parseIntBody (b :: bs) =
            if ((b :: bs).takeWhile isDigit).isEmpty then none
            else some (digitsValue ((b :: bs).takeWhile isDigit) : Int) := by
          simp [parseIntBody, hm, hp]
        rw [e] at h
        obtain ⟨h1, h2, h3⟩ := digit_split (b :: bs)
        by_cases hemp : ((b :: bs).takeWhile isDigit).isEmpty = true
        · rw [if_pos hemp] at h; exact absurd h (by simp)
        · rw [if_neg hemp, digitsValue_eq] at h
          refine ⟨[], (b :: bs).takeWhile isDigit, (b :: bs).dropWhile isDigit, ?_,
            Or.inl rfl, ?_, h2, h3, ?_⟩
          · rw [List.nil_append]; exact h1
          · intro e0; rw [e0] at hemp; exact hemp rfl
          · rw [if_neg (by decide)]; exact (Option.some.inj h).symm

/-- What the parser returns for a field is a reading of the field. -/
theorem readsAs_of_parseInt10 (v : String) (n : Int) (h : parseInt10 (orZero v) = some n) :
    ReadsAs v n := by
  cases hv : v.data with
  | nil =>
    left
    refine ⟨hv, ?_⟩
    have ho : orZero v = "0" := by simp [orZero, hv]
    rw [ho] at h
    have h0 : parseInt10 "0" = some 0 := by decide
    rw [h0] at h
    exact (Option.some.inj h).symm
  | cons c cs =>
    right
    have ho : orZero v = v := by simp [orZero, hv]
    rw [ho] at h
    unfold parseInt10 at h
    obtain ⟨sg, ds, rest, hb, hs, hne, hd, hr, hn⟩ := parseIntBody_some _ n h
    refine ⟨v.data.takeWhile isJsSpace, sg, ds, rest, ?_, ?_, hs, hne, hd, hr, hn⟩
    · rw [List.append_assoc, List.append_assoc, ← List.append_assoc sg, ← hb,
        List.takeWhile_append_dropWhile]
    · intro a ha
      exact List.mem_takeWhile_imp ha

/-- The parser reads a field as `n` exactly when the field reads as `n`. -/
theorem parseInt10_iff_readsAs (v : String) (n : Int) :
    parseInt10 (orZero v) = some n ↔ ReadsAs v n :=
  ⟨readsAs_of_parseInt10 v n, parseInt10_of_readsAs v n⟩

/-- The parsers accept exactly the triples whose three fields are parsed to
integers in range, and return the total of seconds. -/
theorem parseTriple_eq_some_iff (hv mv sv : String) (t : Int) :
    parseTriple hv mv sv = some t ↔
      ∃ h m s : Int, parseInt10 (orZero hv) = some h ∧ parseInt10 (orZero mv) = some m ∧
        parseInt10 (orZero sv) = some s ∧ 0 ≤ h ∧ 0 ≤ m ∧ m ≤ 59 ∧ 0 ≤ s ∧ s ≤ 59 ∧
        t = h * 3600 + m * 60 + s := by
  unfold parseTriple
  rcases hh : parseInt10 (orZero hv) with _ | h <;>
    rcases hm : parseInt10 (orZero mv) with _ | m <;>
    rcases hs : parseInt10 (orZero sv) with _ | s <;>
    simp [badComponent, above59]
  constructor <;> intro hx <;> omega

/-- A rejected submission leaves the session as the metadata capture left
it. -/
theorem createNode_of_rejection (api : MapApi) (s : Session) (f : Form)
    (h : (createNode api s f).2.isRejection = true) :
    (createNode api s f).1 = captureMetadata s f := by
  unfold createNode at h ⊢
  cases hp : s.pendingLatLng with
  | none => rw [hp] at h; simp [CreateResult.isRejection] at h
  | some pos =>
    rw [hp] at h
    simp only at h ⊢
    split
    · rfl
    split
    · rfl
    split
    · rfl
    split
    · rfl
    rename_i h1 h2 h3 h4
    rw [if_neg h1, if_neg h2, if_neg h3, if_neg h4] at h
    cases hh : holdTimeOf f.nodeCategory f with
    | none => rfl
    | some holdTime =>
      rw [hh] at h
      cases ht : taskDurationOf f.nodeCategory f with
      | none => rfl
      | some taskDuration =>
        rw [ht] at h
        simp only at h ⊢
        split
        · rfl
        · rename_i h5
          rw [if_neg h5] at h
          split at h <;> simp [CreateResult.isRejection] at h

/-! ## Properties of the session -/

/-- C1: in every session reached from the initial one by handler invocations,
the ids of the entries of `missionNodes` and `safetyDocks` taken together are
pairwise distinct. -/
theorem ids_pairwise_distinct (api : MapApi) (today : String) (evs : List Event) :
    (((run api today evs).missionNodes ++ (run api today evs).safetyDocks).map
      Node.id).Nodup :=
  (wellFormed_run api today evs).ids_nodup

/-- C2: in every session reached from the initial one by handler invocations,
`missionNodes` and `safetyDocks` together hold at most one node of type
`home`. -/
theorem at_most_one_home (api : MapApi) (today : String) (evs : List Event) :
    (((run api today evs).missionNodes ++ (run api today evs).safetyDocks).filter
      (fun n => n.type == "home")).length ≤ 1 := by
  have h := wellFormed_run api today evs
  have hd : (run api today evs).safetyDocks.filter (fun n => n.type == "home") = [] := by
    rw [List.filter_eq_nil_iff]
    intro d hd
    rw [h.docks_safety d hd]
    decide
  rw [List.filter_append, hd, List.append_nil]
  exact h.home_count

/-- C3, as stated, fails: without any clear, a double click on an earlier
waypoint sets `loopDetected` while `missionEnded` is still false, and a later
double click on the home node sets `missionEnded` as well, so both flags are
true in a reachable session. -/
theorem loop_then_home_sets_both_flags :
    (∀ e ∈ loopThenHomeEvents, e.isClear = false) ∧
    (run flatMap "2024-01-01" (loopThenHomeEvents.take 8)).loopDetected = true ∧
    (run flatMap "2024-01-01" (loopThenHomeEvents.take 8)).missionEnded = false ∧
    (run flatMap "2024-01-01" loopThenHomeEvents).loopDetected = true ∧
    (run flatMap "2024-01-01" loopThenHomeEvents).missionEnded = true := by
  decide

/-- C3, amended: once `missionEnded` is true in a reachable session, every
continuation without a clear keeps `missionEnded` true and leaves
`loopDetected` as it was; in particular `loopDetected` does not become true
after `missionEnded`. -/
theorem ended_freezes_path_flags (api : MapApi) (today : String) (evs₁ evs₂ : List Event)
    (hclear : ∀ e ∈ evs₂, e.isClear = false)
    (hend : (run api today evs₁).missionEnded = true) :
    (run api today (evs₁ ++ evs₂)).missionEnded = true ∧
    (run api today (evs₁ ++ evs₂)).loopDetected = (run api today evs₁).loopDetected := by
  rw [run_append]
  exact foldl_flags_of_ended api evs₂ _ hclear hend

/-- Instance of `ended_freezes_path_flags`: the mission ends at home, then
eight more handlers run. -/
theorem ended_freezes_path_flags_witness :
    (∀ e ∈ afterEndEvents, e.isClear = false) ∧
    (run flatMap "2024-01-01" endAtHomeEvents).missionEnded = true ∧
    (run flatMap "2024-01-01" (endAtHomeEvents ++ afterEndEvents)).missionEnded = true ∧
    (run flatMap "2024-01-01" (endAtHomeEvents ++ afterEndEvents)).loopDetected =
      (run flatMap "2024-01-01" endAtHomeEvents).loopDetected :=
  ⟨by decide, by decide,
    ended_freezes_path_flags flatMap "2024-01-01" endAtHomeEvents afterEndEvents
      (by decide) (by decide)⟩

/-- From a freshly enabled drawing mode, on any map: three clicks of which the
second and third are not near the first, then a click near the first, close
the zone with seven stored points, the closing click among them. -/
theorem four_clicks_store_seven_points (api : MapApi) (today : String)
    (p₀ p₁ p₂ q : LatLng) (h₁ : ¬ api.distance p₁ p₀ < 20) (h₂ : ¬ api.distance p₂ p₀ < 20)
    (hq : api.distance q p₀ < 20) :
    (run api today [.workZoneToggle, .click p₀, .click p₁, .click p₂]).workZonePolygon =
      none ∧
    (run api today
      [.workZoneToggle, .click p₀, .click p₁, .click p₂, .click q]).workZonePolygon =
      some [p₀, p₀, p₁, p₁, p₂, p₂, q] ∧
    (run api today
      [.workZoneToggle, .click p₀, .click p₁, .click p₂, .click q]).workZoneMode = false ∧
    (run api today
      [.workZoneToggle, .click p₀, .click p₁, .click p₂, .click q]).workZonePoints =
      [p₀, p₀, p₁, p₁, p₂, p₂, q] := by
  simp [run, step, initSession, workZoneToggle, mapClick, clickDraw, clickZone, nearStart,
    h₁, h₂, hq]

/-- C4: the code at the failing input.  From a freshly enabled drawing mode,
three clicks that do not close the zone and a fourth click on the first
position close the zone, but `workZonePoints` then holds seven points, each
earlier click twice and the closing click once, not the three points clicked. -/
theorem closing_click_is_stored :
    (run flatMap "2024-01-01" (zoneEvents.take 4)).workZonePolygon = none ∧
    (run flatMap "2024-01-01" (zoneEvents.take 4)).workZoneMode = true ∧
    flatMap.distance posA posA < 20 ∧
    (run flatMap "2024-01-01" zoneEvents).workZonePolygon.isSome = true ∧
    (run flatMap "2024-01-01" zoneEvents).workZoneMode = false ∧
    (run flatMap "2024-01-01" zoneEvents).workZonePoints =
      [posA, posA, posB, posB, posC, posC, posA] ∧
    (run flatMap "2024-01-01" zoneEvents).workZonePoints ≠ [posA, posB, posC] := by
  decide

/-- C5, as stated, fails: on a session with a pending position and no path
node, a submission rejected with "All fields required" changes
`missionMetadata`. -/
theorem rejection_changes_metadata :
    (createNode flatMap (run flatMap "2024-01-01" pendingEvents) blankForm).2 =
      CreateResult.allFieldsRequired ∧
    (run flatMap "2024-01-01" pendingEvents).missionMetadata.missionName = "" ∧
    (createNode flatMap (run flatMap "2024-01-01" pendingEvents)
      blankForm).1.missionMetadata.missionName = "M" ∧
    (createNode flatMap (run flatMap "2024-01-01" pendingEvents) blankForm).1 ≠
      run flatMap "2024-01-01" pendingEvents := by
  decide

/-- C5, amended: a submission rejected by validation leaves `missionNodes`,
`safetyDocks`, `homeNode`, the path flags, the mode flags, the work-zone state
and `pendingLatLng` unchanged; `missionMetadata` is unchanged when
`missionNodes` is non-empty, and when `missionNodes` is empty its
`missionName` and `missionType.type` are the trimmed mission-name field and
the mission-type field, the other members being unchanged. -/
theorem rejection_keeps_all_but_captured_metadata (api : MapApi) (s : Session) (f : Form)
    (h : (createNode api s f).2.isRejection = true) :
    (createNode api s f).1.missionNodes = s.missionNodes ∧
    (createNode api s f).1.safetyDocks = s.safetyDocks ∧
    (createNode api s f).1.homeNode = s.homeNode ∧
    (createNode api s f).1.missionEnded = s.missionEnded ∧
    (createNode api s f).1.loopDetected = s.loopDetected ∧
    (createNode api s f).1.missionModeEnabled = s.missionModeEnabled ∧
    (createNode api s f).1.workZoneMode = s.workZoneMode ∧
    (createNode api s f).1.workZonePoints = s.workZonePoints ∧
    (createNode api s f).1.workZonePolygon = s.workZonePolygon ∧
    (createNode api s f).1.pendingLatLng = s.pendingLatLng ∧
    (s.missionNodes ≠ [] → (createNode api s f).1 = s) ∧
    (s.missionNodes = [] →
      (createNode api s f).1.missionMetadata =
        { s.missionMetadata with
          missionName := jsTrim f.missionName
          missionType :=
            { s.missionMetadata.missionType with type := f.missionType } }) := by
  rw [createNode_of_rejection api s f h]
  obtain ⟨h1, h2, h3, h4, h5, h6, h7, h8, h9, h10, -⟩ := captureMetadata_fields s f
  refine ⟨h1, h2, h3, h4, h5, h6, h7, h8, h9, h10, ?_, ?_⟩
  · intro hne
    unfold captureMetadata
    rw [if_neg]
    simpa using hne
  · intro he
    unfold captureMetadata
    rw [if_pos (by simp [he])]

/-- Instance of `rejection_keeps_all_but_captured_metadata`: the rejected
blank submission on a session with a pending position. -/
theorem rejection_keeps_all_but_captured_metadata_witness :
    (createNode flatMap (run flatMap "2024-01-01" pendingEvents)
      blankForm).2.isRejection = true ∧
    (createNode flatMap (run flatMap "2024-01-01" pendingEvents)
      blankForm).1.pendingLatLng = some posA ∧
    (createNode flatMap (run flatMap "2024-01-01" pendingEvents)
      blankForm).1.missionNodes = [] :=
  ⟨by decide,
    (rejection_keeps_all_but_captured_metadata flatMap
      (run flatMap "2024-01-01" pendingEvents) blankForm (by decide)).2.2.2.2.2.2.2.2.2.1,
    (rejection_keeps_all_but_captured_metadata flatMap
      (run flatMap "2024-01-01" pendingEvents) blankForm (by decide)).1⟩

/-- C6, as stated, fails: the hour field `1x` contains a character that is
not part of a numeral, the reference rejects the triple, and `parseHHMMSS`
returns 3600. -/
theorem trailing_letter_is_accepted :
    refTime trailingLetterForm.hh trailingLetterForm.mm trailingLetterForm.ss = none ∧
    parseHHMMSS trailingLetterForm = some 3600 ∧
    parseHHMMSS trailingLetterForm ≠
      refTime trailingLetterForm.hh trailingLetterForm.mm trailingLetterForm.ss := by
  decide

/-- A reading, from a split of the field that can be checked by evaluation. -/
theorem readsAs_of_split (v : String) (ws sg ds rest : List Char) (n : Int)
    (hv : v.data = ws ++ sg ++ ds ++ rest) (hws : ws.all isJsSpace = true)
    (hs : sg = [] ∨ sg = ['+'] ∨ sg = ['-']) (hne : ds.isEmpty = false)
    (hd : ds.all isDigit = true)
    (hr : (rest.head?.all fun c => !isDigit c) = true)
    (hn : n = if sg = ['-'] then -(numeralValue ds : Int) else (numeralValue ds : Int)) :
    ReadsAs v n := by
  right
  refine ⟨ws, sg, ds, rest, hv, List.all_eq_true.1 hws, hs, ?_, List.all_eq_true.1 hd, ?_, hn⟩
  · intro e; rw [e] at hne; exact absurd hne (by decide)
  · intro c hc
    rw [hc] at hr
    simpa using hr

/-- C6, amended: `parseHHMMSS` and `parseTaskDuration` run the same body on
their three fields, and for every triple of field strings that body reads each
field as follows: an empty field is 0; otherwise leading white space is
skipped, at most one sign is taken, and the longest run of decimal digits that
follows is the magnitude, what comes after the run being ignored; a field with
no digit at that place has no reading.  The result is the invalid one exactly
when some field has no reading, or a reading below 0, or minutes or seconds
read above 59; otherwise it is `h * 3600 + m * 60 + s` for the readings
`h`, `m`, `s` (stated for hours up to 999999999999, where the arithmetic on
script numbers is exact).  In particular, when every field is empty or starts
with a digit, the result is that of the HH:MM:SS reference on the leading
digit runs of the fields, and a field that starts with a character that is
neither white space, a sign nor a digit, or that is a minus sign followed by a
non-zero numeral, makes the result invalid. -/
theorem time_parsers_follow_leading_digits :
    (∀ f : Form, parseHHMMSS f = parseTriple f.hh f.mm f.ss ∧
      parseTaskDuration f = parseTriple f.task_hh f.task_mm f.task_ss) ∧
    (∀ hv mv sv : String, parseTriple hv mv sv = none ↔
      ¬ ∃ h m s : Int, ReadsAs hv h ∧ ReadsAs mv m ∧ ReadsAs sv s ∧
        0 ≤ h ∧ 0 ≤ m ∧ m ≤ 59 ∧ 0 ≤ s ∧ s ≤ 59) ∧
    (∀ (hv mv sv : String) (h m s : Int), ReadsAs hv h → ReadsAs mv m → ReadsAs sv s →
      0 ≤ h → h ≤ 999999999999 → 0 ≤ m → m ≤ 59 → 0 ≤ s → s ≤ 59 →
      parseTriple hv mv sv = some (h * 3600 + m * 60 + s)) ∧
    (∀ hv mv sv : String, emptyOrDigitFirst hv = true → emptyOrDigitFirst mv = true →
      emptyOrDigitFirst sv = true → (leadingDigits hv).length ≤ 12 →
      parseTriple hv mv sv =
        refTime (leadingDigits hv) (leadingDigits mv) (leadingDigits sv)) ∧
    (∀ hv mv sv : String,
      unreadable hv = true ∨ unreadable mv = true ∨ unreadable sv = true →
      parseTriple hv mv sv = none) := by
  refine ⟨fun _ => ⟨rfl, rfl⟩, ?_, ?_,
    fun hv mv sv hh hm hs _ => parseTriple_eq_refTime hv mv sv hh hm hs,
    parseTriple_none_of_unreadable⟩
  · intro hv mv sv
    constructor
    · rintro hnone ⟨h, m, s, rh, rm, rs, h0, m0, m1, s0, s1⟩
      have hsome := (parseTriple_eq_some_iff hv mv sv (h * 3600 + m * 60 + s)).2
        ⟨h, m, s, parseInt10_of_readsAs hv h rh, parseInt10_of_readsAs mv m rm,
          parseInt10_of_readsAs sv s rs, h0, m0, m1, s0, s1, rfl⟩
      rw [hnone] at hsome
      exact Option.noConfusion hsome
    · intro hno
      cases hp : parseTriple hv mv sv with
      | none => rfl
      | some t =>
        exfalso
        obtain ⟨h, m, s, ph, pm, ps, h0, m0, m1, s0, s1, -⟩ :=
          (parseTriple_eq_some_iff hv mv sv t).1 hp
        exact hno ⟨h, m, s, readsAs_of_parseInt10 hv h ph, readsAs_of_parseInt10 mv m pm,
          readsAs_of_parseInt10 sv s ps, h0, m0, m1, s0, s1⟩
  · intro hv mv sv h m s rh rm rs h0 _ m0 m1 s0 s1
    exact (parseTriple_eq_some_iff hv mv sv (h * 3600 + m * 60 + s)).2
      ⟨h, m, s, parseInt10_of_readsAs hv h rh, parseInt10_of_readsAs mv m rm,
        parseInt10_of_readsAs sv s rs, h0, m0, m1, s0, s1, rfl⟩

/-- Instances of `time_parsers_follow_leading_digits`: the three triples named
with the time-field rule; hour fields with a trailing letter, leading white
space, a plus sign and a negative zero, which are accepted; and hour fields
`-5x`, ` -5`, a lone blank, a lone minus and a lone plus, and a negative minute
field, which are not. -/
theorem time_parsers_follow_leading_digits_witness :
    parseTriple "1" "2" "3" = some 3723 ∧
    parseTriple "" "" "" = some 0 ∧
    parseTriple "0" "60" "00" = none ∧
    parseTriple "1x" "0" "0" = some 3600 ∧
    parseTriple " 5" "0" "0" = some 18000 ∧
    parseTriple "+5" "0" "0" = some 18000 ∧
    parseTriple "-0" "0" "0" = some 0 ∧
    parseTriple "0" "-5" "0" = none ∧
    (¬ ∃ h m s : Int, ReadsAs "-5x" h ∧ ReadsAs "0" m ∧ ReadsAs "0" s ∧
      0 ≤ h ∧ 0 ≤ m ∧ m ≤ 59 ∧ 0 ≤ s ∧ s ≤ 59) ∧
    (¬ ∃ h m s : Int, ReadsAs " -5" h ∧ ReadsAs "0" m ∧ ReadsAs "0" s ∧
      0 ≤ h ∧ 0 ≤ m ∧ m ≤ 59 ∧ 0 ≤ s ∧ s ≤ 59) ∧
    (¬ ∃ h m s : Int, ReadsAs " " h ∧ ReadsAs "0" m ∧ ReadsAs "0" s ∧
      0 ≤ h ∧ 0 ≤ m ∧ m ≤ 59 ∧ 0 ≤ s ∧ s ≤ 59) ∧
    (¬ ∃ h m s : Int, ReadsAs "-" h ∧ ReadsAs "0" m ∧ ReadsAs "0" s ∧
      0 ≤ h ∧ 0 ≤ m ∧ m ≤ 59 ∧ 0 ≤ s ∧ s ≤ 59) ∧
    (¬ ∃ h m s : Int, ReadsAs "+" h ∧ ReadsAs "0" m ∧ ReadsAs "0" s ∧
      0 ≤ h ∧ 0 ≤ m ∧ m ≤ 59 ∧ 0 ≤ s ∧ s ≤ 59) :=
  have zero : ReadsAs "0" 0 :=
    readsAs_of_split "0" [] [] ['0'] [] 0 (by decide) (by decide) (by decide) (by decide)
      (by decide) (by decide) (by decide)
  ⟨time_parsers_follow_leading_digits.2.2.2.1 "1" "2" "3" (by decide) (by decide) (by decide)
      (by decide),
    time_parsers_follow_leading_digits.2.2.1 "" "" "" 0 0 0 (Or.inl ⟨rfl, rfl⟩)
      (Or.inl ⟨rfl, rfl⟩) (Or.inl ⟨rfl, rfl⟩) (by decide) (by decide) (by decide) (by decide)
      (by decide) (by decide),
    (time_parsers_follow_leading_digits.2.2.2.1 "0" "60" "00" (by decide) (by decide)
      (by decide) (by decide)),
    time_parsers_follow_leading_digits.2.2.1 "1x" "0" "0" 1 0 0
      (readsAs_of_split "1x" [] [] ['1'] ['x'] 1 (by decide) (by decide) (by decide)
        (by decide) (by decide) (by decide) (by decide))
      zero zero (by decide) (by decide) (by decide) (by decide) (by decide) (by decide),
    time_parsers_follow_leading_digits.2.2.1 " 5" "0" "0" 5 0 0
      (readsAs_of_split " 5" [' '] [] ['5'] [] 5 (by decide) (by decide) (by decide)
        (by decide) (by decide) (by decide) (by decide))
      zero zero (by decide) (by decide) (by decide) (by decide) (by decide) (by decide),
    time_parsers_follow_leading_digits.2.2.1 "+5" "0" "0" 5 0 0
      (readsAs_of_split "+5" [] ['+'] ['5'] [] 5 (by decide) (by decide) (by decide)
        (by decide) (by decide) (by decide) (by decide))
      zero zero (by decide) (by decide) (by decide) (by decide) (by decide) (by decide),
    time_parsers_follow_leading_digits.2.2.1 "-0" "0" "0" 0 0 0
      (readsAs_of_split "-0" [] ['-'] ['0'] [] 0 (by decide) (by decide) (by decide)
        (by decide) (by decide) (by decide) (by decide))
      zero zero (by decide) (by decide) (by decide) (by decide) (by decide) (by decide),
    time_parsers_follow_leading_digits.2.2.2.2 "0" "-5" "0" (Or.inr (Or.inl (by decide))),
    (time_parsers_follow_leading_digits.2.1 "-5x" "0" "0").1 (by decide),
    (time_parsers_follow_leading_digits.2.1 " -5" "0" "0").1 (by decide),
    (time_parsers_follow_leading_digits.2.1 " " "0" "0").1 (by decide),
    (time_parsers_follow_leading_digits.2.1 "-" "0" "0").1 (by decide),
    (time_parsers_follow_leading_digits.2.1 "+" "0" "0").1 (by decide)⟩

/-- C7: the code at the failing input.  A waypoint submitted with empty
task-duration fields carries the task duration 0, and its exported entry has
`taskDuration` null instead of an object with `expectedTime` 0. -/
theorem zero_task_duration_exported_null :
    (run flatMap "2024-01-01" zeroDurationEvents).missionNodes.map Node.taskDuration =
      [some 0] ∧
    (exportMission flatMap (run flatMap "2024-01-01" zeroDurationEvents)).2.missionPath.map
      PathEntry.taskDuration = [none] ∧
    (exportMission flatMap (run flatMap "2024-01-01" zeroDurationEvents)).2.missionPath.map
      PathEntry.taskDuration ≠ [some { expectedTime := 0, unit := "seconds" }] := by
  decide

/-- C8: for every session reached from the initial one, an export with mission
type `infinity` and a non-empty `missionNodes` has `serviceLocation` equal to
the coordinates of the first path node, and an export with `missionNodes`
empty has `serviceLocation` null. -/
theorem export_service_location (api : MapApi) (today : String) (evs : List Event) :
    (∀ (n : Node) (rest : List Node),
      (run api today evs).missionMetadata.missionType.type = "infinity" →
      (run api today evs).missionNodes = n :: rest →
      (exportMission api (run api today evs)).2.metadata.missionType.serviceLocation =
        some ⟨n.lat, n.lng⟩) ∧
    ((run api today evs).missionNodes = [] →
      (exportMission api (run api today evs)).2.metadata.missionType.serviceLocation =
        none) := by
  constructor
  · intro n rest hty hn
    simp [exportMission, updateServiceLocation, hn, hty]
  · intro hn
    have h := (wellFormed_run api today evs).service_none hn
    simp [exportMission, updateServiceLocation, hn, h]

/-- Instances of `export_service_location`: an infinity mission with one
waypoint, and the fresh session. -/
theorem export_service_location_witness :
    (exportMission flatMap
      (run flatMap "2024-01-01" zeroDurationEvents)).2.metadata.missionType.serviceLocation =
      some posA ∧
    (exportMission flatMap
      (run flatMap "2024-01-01" [])).2.metadata.missionType.serviceLocation = none :=
  ⟨(export_service_location flatMap "2024-01-01" zeroDurationEvents).1
      { id := "W1", name := "First", task := "scan", type := "waypoint", lat := 0, lng := 0
        holdTime := 0, taskDuration := some 0 } [] (by decide) (by decide),
    (export_service_location flatMap "2024-01-01" []).2 (by decide)⟩

/-- C9: in every session reached from the initial one that has a closed work
zone, `workZoneMode` is false and a map click leaves `workZonePoints` as it
is; a handler that changes `workZonePoints` there is the work-zone toggle or
clear, and after either of them `workZonePolygon` is null and
`workZonePoints` is empty. -/
theorem closed_zone_is_frozen (api : MapApi) (today : String) (evs : List Event)
    (hclosed : (run api today evs).workZonePolygon.isSome = true) :
    (run api today evs).workZoneMode = false ∧
    (∀ p : LatLng,
      (step api (run api today evs) (.click p)).workZonePoints =
        (run api today evs).workZonePoints) ∧
    (∀ e : Event,
      (step api (run api today evs) e).workZonePoints ≠ (run api today evs).workZonePoints →
      e = .workZoneToggle ∨ e.isClear = true) ∧
    (∀ e : Event, e = .workZoneToggle ∨ e.isClear = true →
      (step api (run api today evs) e).workZonePolygon = none ∧
      (step api (run api today evs) e).workZonePoints = []) := by
  have hmode := (wellFormed_run api today evs).closed_mode hclosed
  generalize run api today evs = s at hclosed hmode
  refine ⟨hmode, ?_, ?_, ?_⟩
  · intro p
    show (mapClick api s p).workZonePoints = s.workZonePoints
    rw [mapClick_of_mode_off api s p hmode]
  · intro e hne
    cases e with
    | missionToggle => exact absurd rfl hne
    | workZoneToggle => exact Or.inl rfl
    | click p =>
      exfalso; apply hne
      show (mapClick api s p).workZonePoints = s.workZonePoints
      rw [mapClick_of_mode_off api s p hmode]
    | dblclick p => exact absurd (dblclick_workZone api s p).2.1 hne
    | createNode f => exact absurd (createNode_frame api s f).2.2.2.2.1 hne
    | cancel => exact absurd rfl hne
    | clear d => exact Or.inr rfl
    | exportJson => exact absurd (updateServiceLocation_frame s).2.2.2.1 hne
  · rintro e (rfl | he)
    · simp [step, workZoneToggle, hmode]
    · cases e with
      | clear d => simp [step, clearMission, resetSidePanel]
      | _ => simp [Event.isClear] at he

/-- Instance of `closed_zone_is_frozen`: the zone closed by four clicks. -/
theorem closed_zone_is_frozen_witness :
    (run flatMap "2024-01-01" zoneEvents).workZonePolygon.isSome = true ∧
    (run flatMap "2024-01-01" zoneEvents).workZoneMode = false ∧
    (step flatMap (run flatMap "2024-01-01" zoneEvents) (.click posB)).workZonePoints =
      (run flatMap "2024-01-01" zoneEvents).workZonePoints ∧
    (step flatMap (run flatMap "2024-01-01" zoneEvents) .workZoneToggle).workZonePoints =
      [] :=
  ⟨by decide,
    (closed_zone_is_frozen flatMap "2024-01-01" zoneEvents (by decide)).1,
    (closed_zone_is_frozen flatMap "2024-01-01" zoneEvents (by decide)).2.1 posB,
    ((closed_zone_is_frozen flatMap "2024-01-01" zoneEvents (by decide)).2.2.2
      .workZoneToggle (Or.inl rfl)).2⟩

/-- C10: in every session reached by handler invocations, clear yields the
mission document of a session freshly initialised on the same date:
`missionNodes` and `safetyDocks` empty, `homeNode` null, both path flags
false, `workZonePoints` empty, `workZonePolygon` null, `workZoneMode` false,
`pendingLatLng` null and `missionMetadata` at its defaults; the session
differs from the fresh one at most in `missionModeEnabled`, which clear does
not touch. -/
theorem clear_resets_document (api : MapApi) (today : String) (evs : List Event)
    (date : String) :
    (step api (run api today evs) (.clear date)).missionNodes = [] ∧
    (step api (run api today evs) (.clear date)).safetyDocks = [] ∧
    (step api (run api today evs) (.clear date)).homeNode = none ∧
    (step api (run api today evs) (.clear date)).missionEnded = false ∧
    (step api (run api today evs) (.clear date)).loopDetected = false ∧
    (step api (run api today evs) (.clear date)).workZonePoints = [] ∧
    (step api (run api today evs) (.clear date)).workZonePolygon = none ∧
    (step api (run api today evs) (.clear date)).workZoneMode = false ∧
    (step api (run api today evs) (.clear date)).pendingLatLng = none ∧
    (step api (run api today evs) (.clear date)).missionMetadata =
      { date := date, missionName := "", version := "1.0", author := "Unknown"
        missionType := { type := "", serviceLocation := none } } ∧
    step api (run api today evs) (.clear date) =
      { initSession date with
        missionModeEnabled := (run api today evs).missionModeEnabled } := by
  refine ⟨rfl, rfl, rfl, rfl, rfl, rfl, rfl, rfl, rfl, rfl, rfl⟩

end MissionPlanner
